import Mathlib

/-
Verification development for the screen recorder in src/FFmpegCapture.cpp.

The program is a single linear pipeline: Initialize configures an H.264
encoder and an MP4 output context, Record loops (capture, convert, encode,
mux, pace) until the escape key is observed, then flushes the encoder and
writes the container trailer.  The external libraries (Win32 GDI, FFmpeg)
are modelled as environments: the encoder is represented by the list of
packets it yields after each send, the timestamp rescaling of the library
by an arbitrary function argument, and the key poll and wall clock by
per-iteration environment records.  The orchestration logic itself -
ordering of calls, counter updates, branch conditions, buffer growth -
is translated directly from the source.
-/

namespace FFmpegCapture

/-- Source line 11: const int FPS = 30. -/
def FPS : Nat := 30

/-- Source line 12: const int FRAME_DELAY = 1000 / FPS, C++ truncating integer
division on positive operands, modelled by Nat division. -/
def FRAME_DELAY : Nat := 1000 / FPS

/-- Source line 13: const int REGION_BORDER = 8. -/
def REGION_BORDER : Nat := 8

/-- Source line 40: codec_ctx->time_base = (1, FPS), the AVRational 1/FPS. -/
def codec_time_base : Int × Int := (1, (FPS : Int))

/-- Environment for Initialize, source lines 19 to 62: results of the
library calls the code makes.  screenW and screenH are what GetSystemMetrics
returns on lines 21 and 22; the Ok fields record whether the corresponding
allocation call returned a non-null pointer; codecOpenRet is the return value
of avcodec_open2 on line 43 and avioOpenRet that of avio_open on line 58. -/
structure InitEnv where
  screenW : Int
  screenH : Int
  allocOutputCtxOk : Bool
  findEncoderOk : Bool
  newStreamOk : Bool
  codecOpenRet : Int
  avioOpenRet : Int
deriving DecidableEq

/-- Outcome of Initialize: the returned Bool, and whether
avformat_write_header on line 59 was reached. -/
structure InitResult where
  ok : Bool
  headerWritten : Bool
deriving DecidableEq

/-- Source lines 19 to 62.  The checks in source order: line 26 tests fmt_ctx
for null, line 30 tests the encoder lookup, line 34 tests the new stream,
line 58 tests avio_open < 0.  The GetSystemMetrics results of lines 21 and 22
are never validated, and the return value of avcodec_open2 on line 43 is
discarded, so neither screenW, screenH nor codecOpenRet affects the result.
avformat_write_header runs only on the all-checks-passed path. -/
def Initialize (e : InitEnv) : InitResult :=
  if e.allocOutputCtxOk = false then { ok := false, headerWritten := false }
  else if e.findEncoderOk = false then { ok := false, headerWritten := false }
  else if e.newStreamOk = false then { ok := false, headerWritten := false }
  else if e.avioOpenRet < 0 then { ok := false, headerWritten := false }
  else { ok := true, headerWritten := true }

/-- Source lines 177 to 184: main calls Initialize and runs Record only when
it returned true, then returns 0 unconditionally.  The pair is the process
exit code and whether Record (hence the capture loop) was entered. -/
def mainRun (e : InitEnv) : Int × Bool :=
  ((0 : Int), (Initialize e).ok)

/-- A muxed packet: its presentation timestamp and its stream index.  The
payload bytes are opaque to the orchestration logic and omitted. -/
structure Packet where
  pts : Int
  stream_index : Int
deriving DecidableEq

/-- The drain loop of EncodeFrame, source lines 158 to 163: while
avcodec_receive_packet returns 0, av_packet_rescale_ts converts the packet
timestamp from codec_ctx->time_base to stream->time_base (the library
conversion is the rescale argument), pkt->stream_index is set to
stream->index (the idx argument), and av_interleaved_write_frame appends
the packet.  The list argument is the sequence of packets the encoder
yields before receive returns non-zero. -/
def drainLoop (rescale : Int → Int) (idx : Int) : List Packet → List Packet
  | [] => []
  | p :: rest => { pts := rescale p.pts, stream_index := idx } :: drainLoop rescale idx rest

/-- The drain loop of the shutdown path, source lines 77 to 80: while
avcodec_receive_packet returns 0 the packet is passed to
av_interleaved_write_frame exactly as received.  This path contains no
av_packet_rescale_ts call and no stream_index assignment. -/
def flushDrain : List Packet → List Packet
  | [] => []
  | p :: rest => p :: flushDrain rest

/-- State threaded through Record: the pts_counter member of line 174, the
pts values assigned to frames submitted to avcodec_send_frame (line 153),
the packets appended to the container in order, the next_frame deadline of
line 65, the deadline passed to each sleep_until call (line 71), the
requested sleep amounts (deadline minus current time; zero or negative
means no wait), and whether the shutdown flush and av_write_trailer ran. -/
structure RecState where
  pts_counter : Int
  sentPts : List Int
  written : List Packet
  next_frame : Int
  deadlines : List Int
  sleeps : List Int
  flushed : Bool
  trailerWritten : Bool
deriving DecidableEq

/-- State at the top of Record, source lines 64 to 65: pts_counter is 0
(line 174 initialiser), nothing sent or written, next_frame is the
steady_clock reading at loop entry. -/
def initRecState (start : Int) : RecState :=
  { pts_counter := 0, sentPts := [], written := [], next_frame := start,
    deadlines := [], sleeps := [], flushed := false, trailerWritten := false }

/-- EncodeFrame, source lines 145 to 165: after the sws_scale conversion the
frame gets pts = pts_counter and the counter is post-incremented (line 153),
the frame is submitted with avcodec_send_frame, and the drain loop appends
the rescaled and tagged packets.  The emission argument is the list of
packets avcodec_receive_packet yields for this submission. -/
def EncodeFrame (rescale : Int → Int) (idx : Int) (emission : List Packet)
    (s : RecState) : RecState :=
  { s with
    pts_counter := s.pts_counter + 1,
    sentPts := s.sentPts ++ [s.pts_counter],
    written := s.written ++ drainLoop rescale idx emission }

/-- Per-iteration environment of the Record loop: the GetAsyncKeyState
escape poll at the loop head (line 66), the packets the encoder yields for
the frame submitted this iteration, and the wall-clock time at which the
iteration reaches sleep_until. -/
structure IterEnv where
  escPressed : Bool
  emission : List Packet
  now : Int
deriving DecidableEq

/-- Number of loop iterations executed (frames captured) before the escape
poll first observes the key pressed. -/
def framesBefore : List IterEnv → Nat
  | [] => 0
  | e :: rest => if e.escPressed then 0 else framesBefore rest + 1

/-- The while loop of Record, source lines 66 to 72: poll the key; if not
pressed, CaptureFrame and EncodeFrame run, then next_frame is advanced by
FRAME_DELAY (added to the previous deadline, line 70) and sleep_until waits
for it (line 71).  The wall clock e.now determines only the recorded sleep
amount, never the deadline.  The result is none when the finite environment
list is exhausted with the key never pressed (in the source the loop would
simply continue). -/
def RecordAux (rescale : Int → Int) (idx : Int) : List IterEnv → RecState → Option RecState
  | [], _ => none
  | e :: rest, s =>
    if e.escPressed then some s
    else
      let s1 := EncodeFrame rescale idx e.emission s
      let d := s1.next_frame + (FRAME_DELAY : Int)
      RecordAux rescale idx rest
        { s1 with next_frame := d, deadlines := s1.deadlines ++ [d],
                  sleeps := s1.sleeps ++ [d - e.now] }

/-- Record, source lines 64 to 84: run the capture loop, then the shutdown
path: avcodec_send_frame(codec_ctx, nullptr) (the flush submission), drain
the remaining packets with flushDrain appending them as received, and call
av_write_trailer.  flushEmission is the list of packets the encoder yields
after the null submission. -/
def Record (rescale : Int → Int) (idx : Int) (start : Int)
    (envs : List IterEnv) (flushEmission : List Packet) : Option RecState :=
  (RecordAux rescale idx envs (initRecState start)).map
    (fun s =>
      { s with written := s.written ++ flushDrain flushEmission,
               flushed := true, trailerWritten := true })

/-- Bytes required by the GetDIBits read in CaptureFrame: width * height * 4
(32-bit pixels), source lines 119 and 123. -/
def captureNeeded (w h : Nat) : Nat := w * h * 4

/-- Source lines 119 to 121: if captureBuffer.size() < width * height * 4
the buffer is resized to width * height * 4, otherwise it is left as is.
The value is the buffer size after the check, just before GetDIBits. -/
def ensureCaptureBuffer (bufSize needed : Nat) : Nat :=
  if bufSize < needed then needed else bufSize

/-- Resources the program acquires and releases: the four FFmpeg objects
created in Initialize and freed in the destructor, the GDI objects of
CaptureFrame and DrawCursor, and the AVPacket of EncodeFrame. -/
inductive Res
  | fmtCtx | codecCtx | swsCtx | avFrame
  | hdcScreen | hdcMem | hBitmap | borderBrush | iconColor | iconMask
  | avPacket
deriving DecidableEq, Fintype

/-- Acquisition or release of a resource. -/
inductive ResEv
  | acquire (r : Res)
  | release (r : Res)
deriving DecidableEq

/-- Resource events of one CaptureFrame call, source lines 94 to 129 in
call order: GetDC, CreateCompatibleDC, CreateCompatibleBitmap,
CreateSolidBrush, DeleteObject(borderBrush); when DrawCursor finds a
visible cursor, GetIconInfo yields the color and mask bitmaps which are
then deleted (lines 135 to 140); finally DeleteObject(hBitmap), DeleteDC,
ReleaseDC. -/
def CaptureFrameRes (cursorDrawn : Bool) : List ResEv :=
  [ResEv.acquire Res.hdcScreen, ResEv.acquire Res.hdcMem,
   ResEv.acquire Res.hBitmap,
   ResEv.acquire Res.borderBrush, ResEv.release Res.borderBrush]
  ++ (if cursorDrawn then
        [ResEv.acquire Res.iconColor, ResEv.acquire Res.iconMask,
         ResEv.release Res.iconColor, ResEv.release Res.iconMask]
      else [])
  ++ [ResEv.release Res.hBitmap, ResEv.release Res.hdcMem,
      ResEv.release Res.hdcScreen]

/-- Resource events of one EncodeFrame call, source lines 157 and 164:
av_packet_alloc then av_packet_free. -/
def EncodeFrameRes : List ResEv :=
  [ResEv.acquire Res.avPacket, ResEv.release Res.avPacket]

/-- Resource events of one iteration of the capture loop, lines 67 to 68. -/
def iterRes (cursorDrawn : Bool) : List ResEv :=
  CaptureFrameRes cursorDrawn ++ EncodeFrameRes

/-- FFmpeg resources acquired on the success path of Initialize, in source
order: avformat_alloc_output_context2 (line 25), avcodec_alloc_context3
(line 37), sws_getContext (line 46), av_frame_alloc (line 51). -/
def InitializeRes : List ResEv :=
  [ResEv.acquire Res.fmtCtx, ResEv.acquire Res.codecCtx,
   ResEv.acquire Res.swsCtx, ResEv.acquire Res.avFrame]

/-- Resource events of the destructor, source lines 86 to 91, when all four
members are non-null: avcodec_free_context, avformat_free_context,
sws_freeContext, av_frame_free, each once. -/
def DestructorRes : List ResEv :=
  [ResEv.release Res.codecCtx, ResEv.release Res.fmtCtx,
   ResEv.release Res.swsCtx, ResEv.release Res.avFrame]

/-- Occurrences of one resource event in a trace. -/
def countEv (t : List ResEv) (ev : ResEv) : Nat := t.count ev

/-- The shutdown drain writes every packet through unchanged. -/
lemma flushDrain_id (l : List Packet) : flushDrain l = l := by
  induction l with
  | nil => rfl
  | cons p rest ih => simp [flushDrain, ih]

/-- The per-frame drain loop is the elementwise rescale-and-tag map. -/
lemma drainLoop_eq_map (rescale : Int → Int) (idx : Int) (l : List Packet) :
    drainLoop rescale idx l =
      l.map (fun p => { pts := rescale p.pts, stream_index := idx }) := by
  induction l with
  | nil => rfl
  | cons p rest ih => simp [drainLoop, ih]

/-- Peeling the first element off a shifted integer range map. -/
lemma range_map_add (c : Int) (k : Nat) :
    (List.range (k + 1)).map (fun (j : Nat) => c + (j : Int)) =
      c :: (List.range k).map (fun (j : Nat) => (c + 1) + (j : Int)) := by
  induction k with
  | zero => simp [List.range_succ]
  | succ n ih =>
    rw [List.range_succ, List.map_append, ih, List.range_succ, List.map_append]
    simp only [List.map_cons, List.map_nil, List.cons_append]
    have hc : c + ((n + 1 : Nat) : Int) = c + 1 + (n : Int) := by push_cast; ring
    rw [hc]

/-- Peeling the first element off the deadline sequence map. -/
lemma range_map_deadline (t D : Int) (k : Nat) :
    (List.range (k + 1)).map (fun (n : Nat) => t + ((n : Int) + 1) * D) =
      (t + D) :: (List.range k).map (fun (n : Nat) => (t + D) + ((n : Int) + 1) * D) := by
  induction k with
  | zero => simp [List.range_succ]
  | succ n ih =>
    rw [List.range_succ, List.map_append, ih, List.range_succ, List.map_append]
    simp only [List.map_cons, List.map_nil, List.cons_append]
    have hc : t + (((n + 1 : Nat) : Int) + 1) * D = (t + D) + ((n : Int) + 1) * D := by
      push_cast; ring
    rw [hc]

/-- Invariant of the capture loop: over any environment in which the key is
eventually observed pressed after k iterations, the counter advances by k,
the submitted pts values are the next k counter values in order, and the
deadline passed to sleep in iteration n is the entry deadline plus (n+1)
times FRAME_DELAY, independent of the wall-clock values in the
environment. -/
lemma recordAux_spec (rescale : Int → Int) (idx : Int) :
    ∀ (envs : List IterEnv) (s s' : RecState),
      RecordAux rescale idx envs s = some s' →
        s'.pts_counter = s.pts_counter + (framesBefore envs : Int) ∧
        s'.sentPts = s.sentPts ++
          (List.range (framesBefore envs)).map (fun (j : Nat) => s.pts_counter + (j : Int)) ∧
        s'.next_frame = s.next_frame + (framesBefore envs : Int) * (FRAME_DELAY : Int) ∧
        s'.deadlines = s.deadlines ++
          (List.range (framesBefore envs)).map
            (fun (n : Nat) => s.next_frame + ((n : Int) + 1) * (FRAME_DELAY : Int)) := by
  intro envs
  induction envs with
  | nil => intro s s' h; simp [RecordAux] at h
  | cons e rest ih =>
    intro s s' h
    by_cases he : e.escPressed = true
    · simp only [RecordAux, he, if_true] at h
      obtain rfl : s = s' := by simpa using h
      simp [framesBefore, he]
    · simp only [RecordAux, he, if_false, Bool.false_eq_true] at h
      obtain ⟨h1, h2, h3, h4⟩ := ih _ _ h
      simp only [EncodeFrame] at h1 h2 h3 h4
      refine ⟨?_, ?_, ?_, ?_⟩
      · rw [h1]
        simp only [framesBefore, he, Bool.false_eq_true, if_false]
        push_cast
        ring
      · rw [h2]
        simp only [framesBefore, he, Bool.false_eq_true, if_false]
        rw [range_map_add]
        simp [List.append_assoc]
      · rw [h3]
        simp only [framesBefore, he, Bool.false_eq_true, if_false]
        push_cast
        ring
      · rw [h4]
        simp only [framesBefore, he, Bool.false_eq_true, if_false]
        rw [range_map_deadline]
        simp [List.append_assoc]

/-- C1: for every run in which N frames are captured (the key is observed
pressed after N loop iterations), the presentation timestamps assigned to
the frames submitted to the encoder are exactly 0, 1, 2, ..., N-1: the
pts_counter starts at zero and advances by one per captured frame, with no
gaps or duplicates, for every choice of environment (hence independent of
any wall-clock sleep variance). -/
theorem c1_pts_exact_range (rescale : Int → Int) (idx start : Int)
    (envs : List IterEnv) (fe : List Packet) (s : RecState)
    (h : Record rescale idx start envs fe = some s) :
    s.sentPts = (List.range (framesBefore envs)).map (fun (j : Nat) => (j : Int)) := by
  unfold Record at h
  cases hr : RecordAux rescale idx envs (initRecState start) with
  | none => rw [hr] at h; simp at h
  | some s0 =>
    rw [hr] at h
    simp only [Option.map_some', Option.some.injEq] at h
    obtain ⟨-, h2, -, -⟩ := recordAux_spec rescale idx envs _ _ hr
    rw [← h]
    simpa [initRecState] using h2

/-- Witness for C1 at a concrete two-iteration run: one frame is captured,
then the key is observed, and the submitted pts list is exactly [0]. -/
theorem c1_pts_exact_range_witness :
    Record (fun p => p) 0 0 [⟨false, [], 100⟩, ⟨true, [], 0⟩] [] =
      some ⟨1, [0], [], 33, [33], [-67], true, true⟩ ∧
    (⟨1, [0], [], 33, [33], [-67], true, true⟩ : RecState).sentPts =
      (List.range (framesBefore [⟨false, [], 100⟩, ⟨true, [], 0⟩])).map
        (fun (j : Nat) => (j : Int)) :=
  ⟨by decide, c1_pts_exact_range (fun p => p) 0 0
    [⟨false, [], 100⟩, ⟨true, [], 0⟩] [] ⟨1, [0], [], 33, [33], [-67], true, true⟩
    (by decide)⟩

/-- C2 counterexample: the shutdown flush does not process drained packets
through the per-frame mux path.  In a run that exits immediately and whose
flush yields one packet with pts 5 and stream index 3, the container
receives that packet unchanged, while the per-frame path (rescale given by
adding 1, stream index 7) would have produced pts 6 and stream index 7. -/
theorem c2_flush_differs_from_mux_path :
    (Record (fun p => p + 1) 7 0 [⟨true, [], 0⟩] [⟨5, 3⟩]).map RecState.written =
      some [⟨5, 3⟩] ∧
    drainLoop (fun p => p + 1) 7 [⟨5, 3⟩] = [⟨6, 7⟩] ∧
    ([⟨5, 3⟩] : List Packet) ≠ [⟨6, 7⟩] := by decide

/-- C2 (amended): at shutdown the final flush drains all remaining packets
and appends every one of them to the container in arrival order, and the
trailer is then written; but the flush path writes each packet exactly as
received from the encoder, without rescaling its timestamp to the stream
time base and without tagging the stream index, unlike the per-frame mux
step. -/
theorem c2_flush_appends_unchanged (rescale : Int → Int) (idx start : Int)
    (envs : List IterEnv) (fe : List Packet) (s : RecState)
    (h : RecordAux rescale idx envs (initRecState start) = some s) :
    Record rescale idx start envs fe =
      some { s with written := s.written ++ fe,
                    flushed := true, trailerWritten := true } := by
  simp [Record, h, flushDrain_id]

/-- Witness for the amended C2 at a concrete immediate-exit run with one
flush packet. -/
theorem c2_flush_appends_unchanged_witness :
    RecordAux (fun p => p) 0 [⟨true, [], 0⟩] (initRecState 0) = some (initRecState 0) ∧
    Record (fun p => p) 0 0 [⟨true, [], 0⟩] [⟨5, 3⟩] =
      some { initRecState 0 with written := (initRecState 0).written ++ [⟨5, 3⟩],
                                 flushed := true, trailerWritten := true } :=
  ⟨by decide, c2_flush_appends_unchanged (fun p => p) 0 0
    [⟨true, [], 0⟩] [⟨5, 3⟩] (initRecState 0) (by decide)⟩

/-- C3: for every terminating run, after n iterations the pacing deadline
next_frame equals start + n * FRAME_DELAY, and the deadline passed to the
sleep of iteration n (counting iterations from 1) is start + n * FRAME_DELAY:
the deadline sequence is anchored to the initial time, each deadline being
the previous one plus the fixed interval, for every choice of the per
iteration wall-clock values, so an overrun shifts no subsequent deadline
and can only make the requested sleep zero or negative. -/
theorem c3_deadlines_drift_free (rescale : Int → Int) (idx start : Int)
    (envs : List IterEnv) (s : RecState)
    (h : RecordAux rescale idx envs (initRecState start) = some s) :
    s.next_frame = start + (framesBefore envs : Int) * (FRAME_DELAY : Int) ∧
    s.deadlines = (List.range (framesBefore envs)).map
      (fun (n : Nat) => start + ((n : Int) + 1) * (FRAME_DELAY : Int)) := by
  obtain ⟨-, -, h3, h4⟩ := recordAux_spec rescale idx envs _ _ h
  constructor
  · simpa [initRecState] using h3
  · simpa [initRecState] using h4

/-- Witness for C3 at a concrete run of one captured frame starting at
time 10 with an overrunning clock: the deadline is 10 + 33 = 43. -/
theorem c3_deadlines_drift_free_witness :
    RecordAux (fun p => p) 0 [⟨false, [], 500⟩, ⟨true, [], 0⟩] (initRecState 10) =
      some ⟨1, [0], [], 43, [43], [-457], false, false⟩ ∧
    (⟨1, [0], [], 43, [43], [-457], false, false⟩ : RecState).next_frame =
      10 + (framesBefore [⟨false, [], 500⟩, ⟨true, [], 0⟩] : Int) * (FRAME_DELAY : Int) ∧
    (⟨1, [0], [], 43, [43], [-457], false, false⟩ : RecState).deadlines =
      (List.range (framesBefore [⟨false, [], 500⟩, ⟨true, [], 0⟩])).map
        (fun (n : Nat) => 10 + ((n : Int) + 1) * (FRAME_DELAY : Int)) :=
  ⟨by decide, c3_deadlines_drift_free (fun p => p) 0 10
    [⟨false, [], 500⟩, ⟨true, [], 0⟩] ⟨1, [0], [], 43, [43], [-457], false, false⟩
    (by decide)⟩

/-- C4 counterexample: with every checked call succeeding but avcodec_open2
failing (return value -22, which is negative), Initialize still reports
success, the header is written, and main enters the capture loop: a failed
codec open does not abort startup. -/
theorem c4_codec_open_failure_not_fatal :
    Initialize ⟨1920, 1080, true, true, true, -22, 0⟩ = ⟨true, true⟩ ∧
    ((-22 : Int) < 0) ∧
    (mainRun ⟨1920, 1080, true, true, true, -22, 0⟩).2 = true := by decide

/-- C4 (amended): Initialize reports failure exactly when one of the four
checked steps fails: output context allocation, encoder lookup, stream
creation, or output file open.  On every failure path the header is never
written (no partial output is attempted) and main never enters the capture
loop.  The avcodec_open2 return value and the display metrics are not
checked, so a failed codec open or a failed display size query does not
abort startup. -/
theorem c4_checked_failures_abort (e : InitEnv) :
    ((Initialize e).ok = false ↔
      (e.allocOutputCtxOk = false ∨ e.findEncoderOk = false ∨
       e.newStreamOk = false ∨ e.avioOpenRet < 0)) ∧
    (Initialize e).headerWritten = (Initialize e).ok ∧
    (mainRun e).2 = (Initialize e).ok := by
  obtain ⟨w, hh, a, f, n, co, av⟩ := e
  by_cases hav : av < 0 <;>
    cases a <;> cases f <;> cases n <;>
      simp [Initialize, mainRun, hav]

/-- C5: before every GetDIBits read, the capture buffer is at least
width * height * 4 bytes (no out-of-bounds pixel read); when it was smaller
it is grown to exactly width * height * 4 bytes, when it was already large
enough it is left untouched (reused, not reallocated), and it is never
shrunk. -/
theorem c5_buffer_grow_only (b w h : Nat) :
    captureNeeded w h ≤ ensureCaptureBuffer b (captureNeeded w h) ∧
    (b < captureNeeded w h →
      ensureCaptureBuffer b (captureNeeded w h) = captureNeeded w h) ∧
    (captureNeeded w h ≤ b →
      ensureCaptureBuffer b (captureNeeded w h) = b) ∧
    b ≤ ensureCaptureBuffer b (captureNeeded w h) := by
  unfold ensureCaptureBuffer
  split_ifs with hlt <;> omega

/-- Witness for C5 at a 2 x 5 screen and a 3-byte buffer: the buffer grows
to exactly 40 bytes. -/
theorem c5_buffer_grow_only_witness :
    captureNeeded 2 5 ≤ ensureCaptureBuffer 3 (captureNeeded 2 5) ∧
    (3 < captureNeeded 2 5 →
      ensureCaptureBuffer 3 (captureNeeded 2 5) = captureNeeded 2 5) ∧
    (captureNeeded 2 5 ≤ 3 →
      ensureCaptureBuffer 3 (captureNeeded 2 5) = 3) ∧
    3 ≤ ensureCaptureBuffer 3 (captureNeeded 2 5) :=
  c5_buffer_grow_only 3 2 5

/-- C6: when the escape key is already observed at the first loop check,
zero frames are captured (no pts submitted), yet the shutdown path still
runs: the flush submission happens, every packet the flush drain yields is
appended to the container, and the trailer is written, so the output file
is finalized rather than abandoned. -/
theorem c6_immediate_exit_still_finalizes (rescale : Int → Int) (idx start : Int)
    (e : IterEnv) (rest : List IterEnv) (fe : List Packet)
    (h : e.escPressed = true) :
    Record rescale idx start (e :: rest) fe =
      some { pts_counter := 0, sentPts := [], written := fe, next_frame := start,
             deadlines := [], sleeps := [], flushed := true,
             trailerWritten := true } := by
  simp [Record, RecordAux, h, initRecState, flushDrain_id]

/-- Witness for C6: a run whose very first key poll observes the press and
whose flush yields one packet still ends with that packet in the container
and the trailer written. -/
theorem c6_immediate_exit_still_finalizes_witness :
    (⟨true, [], 0⟩ : IterEnv).escPressed = true ∧
    Record (fun p => p) 0 0 [⟨true, [], 0⟩] [⟨5, 3⟩] =
      some { pts_counter := 0, sentPts := [], written := [⟨5, 3⟩], next_frame := 0,
             deadlines := [], sleeps := [], flushed := true,
             trailerWritten := true } :=
  ⟨rfl, c6_immediate_exit_still_finalizes (fun p => p) 0 0 ⟨true, [], 0⟩ [] [⟨5, 3⟩] rfl⟩

/-- C7 counterexample: a single loop iteration (even with no cursor drawn)
acquires and releases resources dynamically: CaptureFrame creates and
destroys a screen DC, a memory DC, a bitmap and a brush, and EncodeFrame
allocates and frees an AVPacket, so the loop is not free of per-iteration
resource creation and destruction. -/
theorem c7_loop_has_resource_churn :
    iterRes false ≠ [] ∧
    ResEv.acquire Res.hBitmap ∈ iterRes false ∧
    ResEv.acquire Res.avPacket ∈ iterRes false ∧
    ResEv.release Res.avPacket ∈ iterRes false := by decide

/-- C7 (amended): the FFmpeg objects (format context, codec context, sws
context, frame) are acquired once during Initialize and each is released
exactly once by the destructor, with matching acquire and release counts;
within each loop iteration every transiently acquired resource (GDI handles,
AVPacket) is released in that same iteration; but the loop does perform
such per-iteration acquisition and release, contrary to the original claim
of no churn. -/
theorem c7_startup_resources_once :
    (∀ r : Res, countEv InitializeRes (ResEv.acquire r) =
      countEv DestructorRes (ResEv.release r)) ∧
    (∀ c : Bool, ∀ r : Res, countEv (iterRes c) (ResEv.acquire r) =
      countEv (iterRes c) (ResEv.release r)) ∧
    (∀ c : Bool, iterRes c ≠ []) := by decide

/-- C8: in each iteration, after the frame is submitted the drain loop
accepts whatever number of packets the encoder yields (zero or more, never
assuming one packet per frame), and each drained packet is rescaled by the
library conversion from the codec time base to the stream time base, tagged
with the output stream index, and appended to the container in arrival
order. -/
theorem c8_drain_rescale_tag_append (rescale : Int → Int) (idx : Int)
    (emission : List Packet) (s : RecState) :
    drainLoop rescale idx emission =
      emission.map (fun p => { pts := rescale p.pts, stream_index := idx }) ∧
    (drainLoop rescale idx emission).length = emission.length ∧
    (EncodeFrame rescale idx emission s).written =
      s.written ++ drainLoop rescale idx emission := by
  refine ⟨drainLoop_eq_map rescale idx emission, ?_, rfl⟩
  rw [drainLoop_eq_map]
  simp

/-- C9: the process exit code of main is 0 on every execution path, whether
initialization failed or a recording completed; the exit code never
distinguishes the two. -/
theorem c9_exit_code_always_zero (e : InitEnv) : (mainRun e).1 = 0 := rfl

/-- C10: the pacing interval is the integer division 1000 / 30 = 33
milliseconds while the codec time base is exactly 1/30 second; the
scheduled interval of 33 ms differs from the nominal frame duration of
1000/30 ms, the discrepancy amounting to exactly 1 ms every 3 frames. -/
theorem c10_interval_timebase_mismatch :
    FRAME_DELAY = 33 ∧
    codec_time_base = (1, 30) ∧
    ((FRAME_DELAY : ℚ) ≠ (1000 : ℚ) / (FPS : ℚ)) ∧
    (3 : ℚ) * ((1000 : ℚ) / (FPS : ℚ)) - 3 * (FRAME_DELAY : ℚ) = 1 := by
  refine ⟨rfl, rfl, ?_, ?_⟩ <;> norm_num [FRAME_DELAY, FPS]

end FFmpegCapture
